import Mathlib

/-!
Shallow embedding of the prediction engine of `nasa_enhanced.py`
(class `EnhancedNASAWeather`) from the SmartSauti repository.

Conventions of the embedding:
* Weather quantities are rationals (`ℚ`); Python's float arithmetic on the
  closed-form formulas is modelled exactly over `ℚ`.
* Calendar dates (`datetime` values at day granularity) are day ordinals
  (`ℕ`); adding `timedelta(days=1)` is `+ 1`.
* Library functions of the Python runtime that the repository merely calls
  (`math.sin`, `math.pi`, `hash`, `datetime.timetuple().tm_yday`) are
  abstract parameters, bundled in `PyEnv` together with the `random` module,
  which is modelled as an explicit state-threaded pseudo-random interface
  `RandomLib` (Python's `random` is a global deterministic PRNG: `seed`
  resets its state, every draw consumes state).
* Python `round(x, 1)` is round-half-to-even at one decimal, modelled
  exactly on `ℚ` by `round1`.
-/

namespace SmartSauti

/-- A parsed or simulated daily weather record (`dict` in the Python code).
`_parse_nasa_data` guarantees only the `temperature` key; the other numeric
keys may be absent, hence `Option`. -/
structure DailyRecord where
  date : ℕ
  temperature : ℚ
  max_temperature : Option ℚ
  min_temperature : Option ℚ
  precipitation : Option ℚ
  wind_speed : Option ℚ
  humidity : Option ℚ
deriving DecidableEq

/-- A prediction record produced by `predict_weather` or
`_generate_basic_predictions`; every key is present. -/
structure Prediction where
  date : ℕ
  temperature : ℚ
  precipitation : ℚ
  wind_speed : ℚ
  max_temperature : ℚ
  min_temperature : ℚ
  humidity : ℚ
deriving DecidableEq

/-- The field names `_weighted_average` is called with. -/
inductive WField
  | temperature
  | precipitation
  | wind_speed
  | humidity
deriving DecidableEq

/-- `day.get(parameter, 0)` looks a field up in the record dict; only
`temperature` is guaranteed present. -/
def DailyRecord.get : DailyRecord → WField → Option ℚ
  | rec, .temperature => some rec.temperature
  | rec, .precipitation => rec.precipitation
  | rec, .wind_speed => rec.wind_speed
  | rec, .humidity => rec.humidity

/-- Python's `random` module: a deterministic PRNG with explicit state `σ`.
`seed` resets the state; each sampling function consumes and returns state. -/
structure RandomLib (σ : Type) where
  seed : ℕ → σ
  gauss : σ → ℚ → ℚ → ℚ × σ
  uniform : σ → ℚ → ℚ → ℚ × σ
  expovariate : σ → ℚ → ℚ × σ
  weibullvariate : σ → ℚ → ℚ → ℚ × σ
  rand : σ → ℚ × σ

/-- Runtime facilities the Python code calls but does not define:
`tm_yday` (day-of-year of a date), `math.sin`, `math.pi`, `hash` of the
formatted coordinate string, and the `random` module. -/
structure PyEnv (σ : Type) where
  dayOfYear : ℕ → ℕ
  msin : ℚ → ℚ
  mpi : ℚ
  pyHash : ℚ → ℚ → ℤ
  R : RandomLib σ

/-- Python `round(10*x)` half-to-even, on exact rationals: the integer
nearest to `10*x`, ties going to the even integer. -/
def pyRound10 (x : ℚ) : ℤ :=
  let f := ⌊10 * x⌋
  let r := 10 * x - f
  if r < 1/2 then f
  else if 1/2 < r then f + 1
  else if f % 2 = 0 then f else f + 1

/-- Python `round(x, 1)`: round to one decimal place, half-to-even. -/
def round1 (x : ℚ) : ℚ := (pyRound10 x : ℚ) / 10

/-- The wrap-around day difference computed in `_find_similar_days` and
`_weighted_average`: `min(abs(record_day - target), 365 - abs(record_day - target))`. -/
def circDist (record_day target : ℕ) : ℤ :=
  min |(record_day : ℤ) - (target : ℤ)| (365 - |(record_day : ℤ) - (target : ℤ)|)

/-- `_find_similar_days(historical_data, target_day_of_year, lat, window)`:
keep the records whose day-of-year circular distance to the target is at
most `window` (`lat` is accepted and unused in the source). -/
def findSimilarDays {σ : Type} (E : PyEnv σ) (historical_data : List DailyRecord)
    (target_day_of_year : ℕ) (lat : ℚ) (window : ℤ) : List DailyRecord :=
  historical_data.filter
    (fun rec => decide (circDist (E.dayOfYear rec.date) target_day_of_year ≤ window))

/-- The `total_weight` accumulator of `_weighted_average`: each record
contributes `1.0 / (1 + day_diff)`. -/
def totalWeight {σ : Type} (E : PyEnv σ) (similar_days : List DailyRecord)
    (target_day_of_year : ℕ) : ℚ :=
  (similar_days.map
    (fun rec => (1 : ℚ) / (1 + (circDist (E.dayOfYear rec.date) target_day_of_year : ℚ)))).sum

/-- The `weighted_sum` accumulator of `_weighted_average`: each record
contributes `day.get(parameter, 0) * weight`. -/
def weightedSum {σ : Type} (E : PyEnv σ) (similar_days : List DailyRecord)
    (parameter : WField) (target_day_of_year : ℕ) : ℚ :=
  (similar_days.map
    (fun rec => (rec.get parameter).getD 0 *
      ((1 : ℚ) / (1 + (circDist (E.dayOfYear rec.date) target_day_of_year : ℚ))))).sum

/-- `_weighted_average(similar_days, parameter, target_day_of_year)`:
returns 0 on an empty candidate list, else the weighted sum divided by the
total weight, guarded by `total_weight > 0`. -/
def weightedAverage {σ : Type} (E : PyEnv σ) (similar_days : List DailyRecord)
    (parameter : WField) (target_day_of_year : ℕ) : ℚ :=
  if similar_days.isEmpty then 0
  else
    let total_weight := totalWeight E similar_days target_day_of_year
    let weighted_sum := weightedSum E similar_days parameter target_day_of_year
    if 0 < total_weight then weighted_sum / total_weight else 0

/-- The branch condition `if similar_days and len(similar_days) > 5` of
`predict_weather`. -/
def similarGuard (similar_days : List DailyRecord) : Bool :=
  !similar_days.isEmpty && decide (5 < similar_days.length)

/-- `_climate_based_prediction(lat, lon, day_of_year)`: sinusoidal seasonal
temperature with Gaussian noise, Bernoulli-gated exponential precipitation,
Weibull wind and uniform `[40, 80]` humidity (`lon` is unused in the source).
Returns `(temp, precipitation, wind_speed, humidity)` and the PRNG state. -/
def climateBasedPrediction {σ : Type} (E : PyEnv σ) (lat lon : ℚ) (day_of_year : ℕ)
    (s : σ) : (ℚ × ℚ × ℚ × ℚ) × σ :=
  let base_temp : ℚ := 25 - (|lat| - 30) * (7/10)
  let seasonal_temp : ℚ :=
    if lat < 0 then 10 * E.msin (2 * E.mpi * ((day_of_year : ℚ) - 265) / 365)
    else 10 * E.msin (2 * E.mpi * ((day_of_year : ℚ) - 80) / 365)
  let g := E.R.gauss s 0 3
  let temp := base_temp + seasonal_temp + g.1
  let precip_prob : ℚ := if |lat| < 30 then 4/10 else 3/10
  let u := E.R.rand g.2
  let pr := if u.1 < precip_prob then E.R.expovariate u.2 2 else (0, u.2)
  let w := E.R.weibullvariate pr.2 3 (9/5)
  let h := E.R.uniform w.2 40 80
  ((temp, pr.1, w.1, h.1), h.2)

/-- One iteration of the `for i in range(days)` loop of `predict_weather`:
find similar days, take the weighted-average branch when
`similar_days and len(similar_days) > 5`, otherwise the climate fallback,
then assemble the prediction dict with its clamps and rounding. -/
def predictionStep {σ : Type} (E : PyEnv σ) (lat lon : ℚ)
    (historical_data : List DailyRecord) (future_date : ℕ) (s : σ) : Prediction × σ :=
  let day_of_year := E.dayOfYear future_date
  let similar_days := findSimilarDays E historical_data day_of_year lat 10
  let core :=
    if similarGuard similar_days then
      let pred_temp := weightedAverage E similar_days .temperature day_of_year
      let pred_precip := weightedAverage E similar_days .precipitation day_of_year
      let pred_wind := weightedAverage E similar_days .wind_speed day_of_year
      let pred_humidity := weightedAverage E similar_days .humidity day_of_year
      let g1 := E.R.gauss s 0 (3/2)
      let g2 := E.R.gauss g1.2 0 (4/5)
      let g3 := E.R.gauss g2.2 0 (1/2)
      let g4 := E.R.gauss g3.2 0 5
      ((pred_temp + g1.1, max 0 (pred_precip + g2.1), max (1/10) (pred_wind + g3.1),
        max 20 (min 95 (pred_humidity + g4.1))), g4.2)
    else
      climateBasedPrediction E lat lon day_of_year s
  let pred_temp := core.1.1
  let pred_precip := core.1.2.1
  let pred_wind := core.1.2.2.1
  let pred_humidity := core.1.2.2.2
  let u1 := E.R.uniform core.2 2 6
  let u2 := E.R.uniform u1.2 2 6
  ({ date := future_date
     temperature := round1 pred_temp
     precipitation := round1 (max 0 pred_precip)
     wind_speed := round1 (max (1/10) pred_wind)
     max_temperature := round1 (pred_temp + u1.1)
     min_temperature := round1 (pred_temp - u2.1)
     humidity := round1 pred_humidity }, u2.2)

/-- One iteration of the loop of `_generate_basic_predictions`: a climate
prediction with fixed `±4` max/min spread and no clamps on the stored
precipitation, wind and humidity. -/
def basicStep {σ : Type} (E : PyEnv σ) (lat lon : ℚ) (future_date : ℕ) (s : σ) :
    Prediction × σ :=
  let day_of_year := E.dayOfYear future_date
  let c := climateBasedPrediction E lat lon day_of_year s
  ({ date := future_date
     temperature := round1 c.1.1
     precipitation := round1 c.1.2.1
     wind_speed := round1 c.1.2.2.1
     max_temperature := round1 (c.1.1 + 4)
     min_temperature := round1 (c.1.1 - 4)
     humidity := round1 c.1.2.2.2 }, c.2)

/-- The common shape of the two prediction loops: for `i` ranging over the
remaining count, run `step` on `base + i + 1` (`base + timedelta(days=i+1)`),
threading the PRNG state and appending the records in order. -/
def dateLoop {σ : Type} (step : ℕ → σ → Prediction × σ) (base : ℕ) :
    ℕ → ℕ → σ → List Prediction × σ
  | 0, _, s => ([], s)
  | n + 1, i, s =>
    let p := step (base + i + 1) s
    let rest := dateLoop step base n (i + 1) p.2
    (p.1 :: rest.1, rest.2)

/-- `_generate_basic_predictions(lat, lon, days)`: `days` basic predictions
for the days following `current_date` (`datetime.now()` in the source). -/
def generateBasicPredictions {σ : Type} (E : PyEnv σ) (lat lon : ℚ) (days : ℕ)
    (current_date : ℕ) (s : σ) : List Prediction × σ :=
  dateLoop (basicStep E lat lon) current_date days 0 s

/-- The core of `predict_weather(lat, lon, days)` after the historical data
has been obtained: if it is empty, fall back to
`_generate_basic_predictions`; otherwise predict each of the `days` days
following the last historical date. `today` stands for `datetime.now()`. -/
def predictWeatherFrom {σ : Type} (E : PyEnv σ) (lat lon : ℚ) (days : ℕ)
    (historical_data : List DailyRecord) (today : ℕ) (s : σ) : List Prediction × σ :=
  if historical_data.isEmpty then
    generateBasicPredictions E lat lon days today s
  else
    let last_date :=
      match historical_data.getLast? with
      | some rec => rec.date
      | none => today
    dateLoop (predictionStep E lat lon historical_data) last_date days 0 s

/-- The `while current_date <= end` body of `_generate_simulated_data`,
with the remaining number of days as fuel. -/
def simLoop {σ : Type} (E : PyEnv σ) (lat lon : ℚ) :
    ℕ → ℕ → σ → List DailyRecord × σ
  | _, 0, s => ([], s)
  | current_date, n + 1, s =>
    let day_of_year := E.dayOfYear current_date
    let base_temp : ℚ := 25 - (|lat| - 30) * (7/10)
    let seasonal_temp : ℚ :=
      if lat < 0 then 10 * E.msin (2 * E.mpi * ((day_of_year : ℚ) - 265) / 365)
      else 10 * E.msin (2 * E.mpi * ((day_of_year : ℚ) - 80) / 365)
    let tv := E.R.gauss s 0 4
    let max_temp := base_temp + seasonal_temp + tv.1 + 6
    let min_temp := base_temp + seasonal_temp + tv.1 - 6
    let mean_temp := (max_temp + min_temp) / 2
    let precip_prob : ℚ :=
      if |lat| < 30 then 4/10 + (2/10) * E.msin (2 * E.mpi * ((day_of_year : ℚ) - 200) / 365)
      else 3/10 + (3/10) * E.msin (2 * E.mpi * ((day_of_year : ℚ) - 170) / 365)
    let u := E.R.rand tv.2
    let pr :=
      if u.1 < precip_prob then
        let g := E.R.gauss u.2 2 3
        (max 0 g.1, g.2)
      else (0, u.2)
    let base_wind : ℚ := 3 + |lat| * (1/10)
    let gw := E.R.gauss pr.2 base_wind 2
    let wind_speed := max 0 gw.1
    let base_humidity : ℚ := 60 + (30 - |lat|) * (1/2)
    let gh := E.R.gauss gw.2 base_humidity 15
    let humidity := max 30 (min 95 gh.1)
    let rec1 : DailyRecord :=
      { date := current_date
        temperature := round1 mean_temp
        max_temperature := some (round1 max_temp)
        min_temperature := some (round1 min_temp)
        precipitation := some (round1 pr.1)
        wind_speed := some (round1 wind_speed)
        humidity := some (round1 humidity) }
    let rest := simLoop E lat lon (current_date + 1) n pr.2
    (rec1 :: rest.1, rest.2)

/-- `_generate_simulated_data(lat, lon, start_date, end_date)`: re-seed the
PRNG from `abs(hash(f"{lat}_{lon}")) % 10000`, then generate one record per
day from `start_date` to `end_date` inclusive. The incoming PRNG state `s`
is overwritten by the seeding. -/
def generateSimulatedData {σ : Type} (E : PyEnv σ) (lat lon : ℚ)
    (start_date end_date : ℕ) (s : σ) : List DailyRecord × σ :=
  let seed_value := (E.pyHash lat lon).natAbs % 10000
  let s0 := E.R.seed seed_value
  simLoop E lat lon start_date (if start_date ≤ end_date then end_date - start_date + 1 else 0) s0

/-- Outcome of one NASA POWER request attempt in `get_historical_data`:
either an exception / non-200 status, or a 200 response whose parse by
`_parse_nasa_data` yielded the given records. -/
inductive AttemptResult
  | fail
  | ok (parsed : List DailyRecord)

/-- The `for parameters in parameter_sets` loop of `get_historical_data`:
return the first attempt that produced a non-empty parsed record list. -/
def firstSuccess : List AttemptResult → Option (List DailyRecord)
  | [] => none
  | .fail :: rest => firstSuccess rest
  | .ok parsed :: rest => if parsed.isEmpty then firstSuccess rest else some parsed

/-- `get_historical_data(lat, lon, start_date, end_date)`: try the parameter
sets in order (their outcomes are the external input `attempts`); if none
yields non-empty parsed data, the raised exception is caught and
`_generate_simulated_data` is used as fallback. -/
def getHistoricalData {σ : Type} (E : PyEnv σ) (attempts : List AttemptResult)
    (lat lon : ℚ) (start_date end_date : ℕ) (s : σ) : List DailyRecord × σ :=
  match firstSuccess attempts with
  | some parsed => (parsed, s)
  | none => generateSimulatedData E lat lon start_date end_date s

/-- Modelled from the spec's words for contrast (refinement comparison
only): the weighted mean taken over only those candidate records that do
have the requested field — what `_weighted_average` would compute if missing
fields were skipped instead of substituted by 0. -/
def presentOnlyWeightedAverage {σ : Type} (E : PyEnv σ) (similar_days : List DailyRecord)
    (parameter : WField) (target_day_of_year : ℕ) : ℚ :=
  let present := similar_days.filter (fun rec => (rec.get parameter).isSome)
  if present.isEmpty then 0
  else
    let total_weight := totalWeight E present target_day_of_year
    let weighted_sum := weightedSum E present parameter target_day_of_year
    if 0 < total_weight then weighted_sum / total_weight else 0

/-! ### Lemmas about the rounding model -/

theorem pyRound10_mono {x y : ℚ} (h : x ≤ y) : pyRound10 x ≤ pyRound10 y := by
  have hxy : (10 : ℚ) * x ≤ 10 * y := by linarith
  have hf : ⌊(10 : ℚ) * x⌋ ≤ ⌊(10 : ℚ) * y⌋ := Int.floor_mono hxy
  have hx1 : ((⌊(10 : ℚ) * x⌋ : ℤ) : ℚ) ≤ 10 * x := Int.floor_le _
  have hy2 : 10 * y < ⌊(10 : ℚ) * y⌋ + 1 := Int.lt_floor_add_one _
  simp only [pyRound10]
  rcases lt_or_eq_of_le hf with hlt | heq
  · split_ifs <;> omega
  · rw [← heq] at hy2 ⊢
    split_ifs <;> try omega
    all_goals linarith

theorem round1_mono {x y : ℚ} (h : x ≤ y) : round1 x ≤ round1 y := by
  have h1 : pyRound10 x ≤ pyRound10 y := pyRound10_mono h
  have h2 : ((pyRound10 x : ℤ) : ℚ) ≤ (pyRound10 y : ℤ) := by exact_mod_cast h1
  simp only [round1]
  linarith

theorem round1_eq_self {x : ℚ} (m : ℤ) (h : (10 : ℚ) * x = (m : ℚ)) : round1 x = x := by
  have hf : ⌊(10 : ℚ) * x⌋ = m := by rw [h, Int.floor_intCast]
  have hr : (10 : ℚ) * x - (⌊(10 : ℚ) * x⌋ : ℚ) = 0 := by rw [hf, ← h]; ring
  simp only [round1, pyRound10, hr]
  norm_num [hf]
  linarith

theorem pyRound10_add_int (x : ℚ) (k : ℤ) :
    pyRound10 (x + (k : ℚ)) = pyRound10 x + 10 * k := by
  have h1 : (10 : ℚ) * (x + (k : ℚ)) = 10 * x + ((10 * k : ℤ) : ℚ) := by push_cast; ring
  have hf : ⌊(10 : ℚ) * (x + (k : ℚ))⌋ = ⌊(10 : ℚ) * x⌋ + 10 * k := by
    rw [h1, Int.floor_add_int]
  simp only [pyRound10, hf]
  have hc : (10 : ℚ) * (x + (k : ℚ)) - ((⌊(10 : ℚ) * x⌋ + 10 * k : ℤ) : ℚ) =
      10 * x - (⌊(10 : ℚ) * x⌋ : ℚ) := by push_cast; ring
  rw [hc]
  have hpar : (⌊(10 : ℚ) * x⌋ + 10 * k) % 2 = ⌊(10 : ℚ) * x⌋ % 2 := by omega
  rw [hpar]
  split_ifs <;> omega

theorem round1_add_int (x : ℚ) (k : ℤ) : round1 (x + (k : ℚ)) = round1 x + k := by
  simp only [round1, pyRound10_add_int]
  push_cast
  ring

theorem round1_sub_int (x : ℚ) (k : ℤ) : round1 (x - (k : ℚ)) = round1 x - k := by
  have h := round1_add_int x (-k)
  push_cast at h
  rw [show x - (k : ℚ) = x + -(k : ℚ) by ring]
  rw [h]; ring

theorem round1_zero : round1 0 = 0 := round1_eq_self 0 (by norm_num)

theorem round1_tenth : round1 (1/10) = 1/10 := round1_eq_self 1 (by norm_num)

theorem round1_twenty : round1 20 = 20 := round1_eq_self 200 (by norm_num)

theorem round1_forty : round1 40 = 40 := round1_eq_self 400 (by norm_num)

theorem round1_eighty : round1 80 = 80 := round1_eq_self 800 (by norm_num)

theorem round1_ninetyfive : round1 95 = 95 := round1_eq_self 950 (by norm_num)

theorem round1_nonneg {x : ℚ} (h : 0 ≤ x) : 0 ≤ round1 x := by
  have := round1_mono h
  rwa [round1_zero] at this

/-! ### Lemmas about the circular day distance -/

theorem circDist_symm (r d : ℕ) : circDist r d = circDist d r := by
  simp only [circDist, abs_sub_comm]

theorem circDist_nonneg {r d : ℕ} (hr1 : 1 ≤ r) (hr2 : r ≤ 366) (hd1 : 1 ≤ d)
    (hd2 : d ≤ 366) : 0 ≤ circDist r d := by
  simp only [circDist]
  have h := Int.abs_eq_natAbs ((r : ℤ) - (d : ℤ))
  omega

theorem circDist_le_182 {r d : ℕ} (hr1 : 1 ≤ r) (hr2 : r ≤ 366) (hd1 : 1 ≤ d)
    (hd2 : d ≤ 366) : circDist r d ≤ 182 := by
  simp only [circDist]
  have h := Int.abs_eq_natAbs ((r : ℤ) - (d : ℤ))
  omega

theorem round1_add_six (x : ℚ) : round1 (x + 6) = round1 x + 6 := by
  have h := round1_add_int x 6
  push_cast at h
  exact h

theorem round1_sub_six (x : ℚ) : round1 (x - 6) = round1 x - 6 := by
  have h := round1_sub_int x 6
  push_cast at h
  exact h

/-! ### Lemmas about the prediction loops -/

theorem dateLoop_length {σ : Type} (step : ℕ → σ → Prediction × σ) (base : ℕ) :
    ∀ (n i : ℕ) (s : σ), ((dateLoop step base n i s).1).length = n
  | 0, _, _ => rfl
  | n + 1, i, s => by
    simp only [dateLoop, List.length_cons]
    rw [dateLoop_length step base n (i + 1)]

theorem dateLoop_map_date {σ : Type} (step : ℕ → σ → Prediction × σ) (base : ℕ)
    (hdate : ∀ fd s, (step fd s).1.date = fd) :
    ∀ (n i : ℕ) (s : σ),
      ((dateLoop step base n i s).1).map Prediction.date = List.range' (base + i + 1) n
  | 0, _, _ => by simp [dateLoop]
  | n + 1, i, s => by
    simp only [dateLoop, List.map_cons]
    rw [List.range'_succ, hdate, dateLoop_map_date step base hdate n (i + 1)]
    have h2 : base + (i + 1) + 1 = base + i + 1 + 1 := by omega
    rw [h2]

theorem dateLoop_mem {σ : Type} (P : Prediction → Prop) (step : ℕ → σ → Prediction × σ)
    (base : ℕ) (hstep : ∀ fd s, P (step fd s).1) :
    ∀ (n i : ℕ) (s : σ) (p : Prediction), p ∈ (dateLoop step base n i s).1 → P p
  | 0, _, _, p, hp => by simp [dateLoop] at hp
  | n + 1, i, s, p, hp => by
    simp only [dateLoop, List.mem_cons] at hp
    rcases hp with h | h
    · rw [h]; exact hstep _ _
    · exact dateLoop_mem P step base hstep n (i + 1) _ p h

theorem chain'_consecutive_range' :
    ∀ (n s : ℕ), List.Chain' (fun a b => b = a + 1) (List.range' s n)
  | 0, _ => by simp
  | n + 1, s => by
    rw [List.range'_succ, List.chain'_cons']
    refine ⟨?_, chain'_consecutive_range' n (s + 1)⟩
    intro b hb
    cases n with
    | zero => simp at hb
    | succ m =>
      rw [List.range'_succ] at hb
      simp only [List.head?_cons, Option.mem_def, Option.some.injEq] at hb
      omega

theorem simLoop_length {σ : Type} (E : PyEnv σ) (lat lon : ℚ) :
    ∀ (current_date n : ℕ) (s : σ), ((simLoop E lat lon current_date n s).1).length = n
  | _, 0, _ => rfl
  | c, n + 1, s => by
    simp only [simLoop, List.length_cons]
    rw [simLoop_length E lat lon (c + 1) n]

theorem simLoop_spread {σ : Type} (E : PyEnv σ) (lat lon : ℚ) :
    ∀ (current_date n : ℕ) (s : σ) (rec : DailyRecord),
      rec ∈ (simLoop E lat lon current_date n s).1 →
        rec.max_temperature = some (rec.temperature + 6) ∧
        rec.min_temperature = some (rec.temperature - 6)
  | _, 0, _, rec, hp => by simp [simLoop] at hp
  | c, n + 1, s, rec, hp => by
    simp only [simLoop, List.mem_cons] at hp
    rcases hp with h | h
    · rw [h]
      refine ⟨?_, ?_⟩ <;>
      · simp only [Option.some.injEq]
        rw [show ∀ A : ℚ, (A + 6 + (A - 6)) / 2 = A from fun A => by ring]
        simp [round1_add_six, round1_sub_six]
    · exact simLoop_spread E lat lon (c + 1) n _ rec h

/-! ### Range facts about the climate fallback and the two step functions.
The hypotheses on `RandomLib` state what the corresponding Python
distributions guarantee: `random.uniform(a, b)` lies in `[a, b]`,
`random.expovariate` and `random.weibullvariate` are nonnegative. -/

theorem climate_precipitation_nonneg {σ : Type} (E : PyEnv σ) (lat lon : ℚ) (d : ℕ) (s : σ)
    (hexpo : ∀ (s' : σ) (l : ℚ), 0 ≤ (E.R.expovariate s' l).1) :
    0 ≤ (climateBasedPrediction E lat lon d s).1.2.1 := by
  simp only [climateBasedPrediction]
  split_ifs <;> simp [hexpo]

theorem climate_wind_nonneg {σ : Type} (E : PyEnv σ) (lat lon : ℚ) (d : ℕ) (s : σ)
    (hweib : ∀ (s' : σ) (a b : ℚ), 0 ≤ (E.R.weibullvariate s' a b).1) :
    0 ≤ (climateBasedPrediction E lat lon d s).1.2.2.1 := by
  simp only [climateBasedPrediction]
  exact hweib _ _ _

theorem climate_humidity_range {σ : Type} (E : PyEnv σ) (lat lon : ℚ) (d : ℕ) (s : σ)
    (hu : ∀ (s' : σ) (a b : ℚ), a ≤ b →
      a ≤ (E.R.uniform s' a b).1 ∧ (E.R.uniform s' a b).1 ≤ b) :
    40 ≤ (climateBasedPrediction E lat lon d s).1.2.2.2 ∧
      (climateBasedPrediction E lat lon d s).1.2.2.2 ≤ 80 := by
  simp only [climateBasedPrediction]
  exact hu _ 40 80 (by norm_num)

theorem basicStep_ranges {σ : Type} (E : PyEnv σ) (lat lon : ℚ) (fd : ℕ) (s : σ)
    (hu : ∀ (s' : σ) (a b : ℚ), a ≤ b →
      a ≤ (E.R.uniform s' a b).1 ∧ (E.R.uniform s' a b).1 ≤ b)
    (hexpo : ∀ (s' : σ) (l : ℚ), 0 ≤ (E.R.expovariate s' l).1)
    (hweib : ∀ (s' : σ) (a b : ℚ), 0 ≤ (E.R.weibullvariate s' a b).1) :
    0 ≤ (basicStep E lat lon fd s).1.precipitation ∧
    0 ≤ (basicStep E lat lon fd s).1.wind_speed ∧
    20 ≤ (basicStep E lat lon fd s).1.humidity ∧
    (basicStep E lat lon fd s).1.humidity ≤ 95 := by
  have hp := climate_precipitation_nonneg E lat lon (E.dayOfYear fd) s hexpo
  have hw := climate_wind_nonneg E lat lon (E.dayOfYear fd) s hweib
  have hh := climate_humidity_range E lat lon (E.dayOfYear fd) s hu
  have hh1 := round1_mono hh.1
  have hh2 := round1_mono hh.2
  rw [round1_forty] at hh1
  rw [round1_eighty] at hh2
  simp only [basicStep]
  exact ⟨round1_nonneg hp, round1_nonneg hw, by linarith, by linarith⟩

theorem basicStep_temp_order {σ : Type} (E : PyEnv σ) (lat lon : ℚ) (fd : ℕ) (s : σ) :
    (basicStep E lat lon fd s).1.min_temperature ≤ (basicStep E lat lon fd s).1.temperature ∧
    (basicStep E lat lon fd s).1.temperature ≤ (basicStep E lat lon fd s).1.max_temperature := by
  exact ⟨round1_mono (by linarith), round1_mono (by linarith)⟩

theorem predictionStep_ranges {σ : Type} (E : PyEnv σ) (lat lon : ℚ)
    (historical_data : List DailyRecord) (fd : ℕ) (s : σ)
    (hu : ∀ (s' : σ) (a b : ℚ), a ≤ b →
      a ≤ (E.R.uniform s' a b).1 ∧ (E.R.uniform s' a b).1 ≤ b) :
    0 ≤ (predictionStep E lat lon historical_data fd s).1.precipitation ∧
    0 ≤ (predictionStep E lat lon historical_data fd s).1.wind_speed ∧
    20 ≤ (predictionStep E lat lon historical_data fd s).1.humidity ∧
    (predictionStep E lat lon historical_data fd s).1.humidity ≤ 95 := by
  have key1 : ∀ x : ℚ, 0 ≤ round1 (max (1/10) x) := by
    intro x
    have h2 := round1_mono (le_max_left (1/10 : ℚ) x)
    rw [round1_tenth] at h2
    linarith
  have key2 : ∀ x : ℚ, 20 ≤ round1 (max 20 (min 95 x)) := by
    intro x
    have h2 := round1_mono (le_max_left (20 : ℚ) (min 95 x))
    rwa [round1_twenty] at h2
  have key3 : ∀ x : ℚ, round1 (max 20 (min 95 x)) ≤ 95 := by
    intro x
    have h2 := round1_mono (max_le (by norm_num : (20 : ℚ) ≤ 95) (min_le_left 95 x))
    rwa [round1_ninetyfive] at h2
  simp only [predictionStep]
  refine ⟨round1_nonneg (le_max_left 0 _), key1 _, ?_, ?_⟩
  · split_ifs with hg
    · exact key2 _
    · have hh := climate_humidity_range E lat lon (E.dayOfYear fd) s hu
      have h2 := round1_mono hh.1
      rw [round1_forty] at h2
      linarith
  · split_ifs with hg
    · exact key3 _
    · have hh := climate_humidity_range E lat lon (E.dayOfYear fd) s hu
      have h2 := round1_mono hh.2
      rw [round1_eighty] at h2
      linarith

theorem predictionStep_temp_order {σ : Type} (E : PyEnv σ) (lat lon : ℚ)
    (historical_data : List DailyRecord) (fd : ℕ) (s : σ)
    (hu : ∀ (s' : σ) (a b : ℚ), a ≤ b →
      a ≤ (E.R.uniform s' a b).1 ∧ (E.R.uniform s' a b).1 ≤ b) :
    (predictionStep E lat lon historical_data fd s).1.min_temperature ≤
      (predictionStep E lat lon historical_data fd s).1.temperature ∧
    (predictionStep E lat lon historical_data fd s).1.temperature ≤
      (predictionStep E lat lon historical_data fd s).1.max_temperature := by
  simp only [predictionStep]
  constructor
  · exact round1_mono (sub_le_self _
      (le_trans (by norm_num) (hu _ 2 6 (by norm_num)).1))
  · exact round1_mono (le_add_of_nonneg_right
      (le_trans (by norm_num) (hu _ 2 6 (by norm_num)).1))

theorem firstSuccess_ne_nil {attempts : List AttemptResult} {l : List DailyRecord}
    (h : firstSuccess attempts = some l) : l ≠ [] := by
  induction attempts with
  | nil => simp [firstSuccess] at h
  | cons a rest ih =>
    cases a with
    | fail => exact ih h
    | ok parsed =>
      simp only [firstSuccess] at h
      split_ifs at h with hp
      · exact ih h
      · rw [Option.some_inj] at h
        rw [← h]
        simpa [List.isEmpty_iff] using hp

/-! ### Weighted-average lemmas -/

theorem totalWeight_pos {σ : Type} (E : PyEnv σ) (similar_days : List DailyRecord)
    (target_day_of_year : ℕ) (hd1 : 1 ≤ target_day_of_year) (hd2 : target_day_of_year ≤ 366)
    (hr : ∀ rec ∈ similar_days, 1 ≤ E.dayOfYear rec.date ∧ E.dayOfYear rec.date ≤ 366)
    (hne : similar_days ≠ []) : 0 < totalWeight E similar_days target_day_of_year := by
  unfold totalWeight
  apply List.sum_pos
  · intro q hq
    simp only [List.mem_map] at hq
    obtain ⟨rec, hrec, rfl⟩ := hq
    have h0 := circDist_nonneg (hr rec hrec).1 (hr rec hrec).2 hd1 hd2
    have h0' : (0 : ℚ) ≤ (circDist (E.dayOfYear rec.date) target_day_of_year : ℚ) := by
      exact_mod_cast h0
    have hpos : (0 : ℚ) < 1 + (circDist (E.dayOfYear rec.date) target_day_of_year : ℚ) := by
      linarith
    exact div_pos one_pos hpos
  · intro hmap
    exact hne (List.map_eq_nil_iff.mp hmap)

theorem weightedSum_filter_isSome {σ : Type} (E : PyEnv σ) (parameter : WField)
    (target_day_of_year : ℕ) :
    ∀ l : List DailyRecord,
      weightedSum E (l.filter (fun rec => (rec.get parameter).isSome)) parameter
          target_day_of_year =
        weightedSum E l parameter target_day_of_year
  | [] => rfl
  | a :: l => by
    rw [List.filter_cons]
    by_cases ha : (a.get parameter).isSome
    · rw [if_pos (by simpa using ha)]
      simp only [weightedSum, List.map_cons, List.sum_cons]
      have ih := weightedSum_filter_isSome E parameter target_day_of_year l
      simp only [weightedSum] at ih
      rw [ih]
    · rw [if_neg (by simpa using ha)]
      have hnone : a.get parameter = none := Option.not_isSome_iff_eq_none.mp ha
      have ih := weightedSum_filter_isSome E parameter target_day_of_year l
      simp only [weightedSum] at ih ⊢
      rw [ih, List.map_cons, List.sum_cons, hnone]
      simp

/-! ### A concrete instantiation of the runtime environment, used to
exhibit concrete behaviours of the embedded functions. -/

/-- A trivial but admissible `random` implementation: `uniform` returns its
lower bound, `expovariate` returns 1, all other draws return 0. -/
def demoRandom : RandomLib Unit where
  seed := fun _ => ()
  gauss := fun s _ _ => (0, s)
  uniform := fun s a _ => (a, s)
  expovariate := fun s _ => (1, s)
  weibullvariate := fun s _ _ => (0, s)
  rand := fun s => (0, s)

/-- A concrete runtime environment: day-of-year in `[1, 366]`, zero sine and
hash. -/
def demoEnv : PyEnv Unit where
  dayOfYear := fun n => n % 366 + 1
  msin := fun _ => 0
  mpi := 0
  pyHash := fun _ _ => 0
  R := demoRandom

theorem demoEnv_uniform_range : ∀ (s' : Unit) (a b : ℚ), a ≤ b →
    a ≤ (demoEnv.R.uniform s' a b).1 ∧ (demoEnv.R.uniform s' a b).1 ≤ b :=
  fun _ a _ h => ⟨le_refl a, h⟩

theorem demoEnv_expovariate_nonneg : ∀ (s' : Unit) (l : ℚ),
    0 ≤ (demoEnv.R.expovariate s' l).1 :=
  fun _ _ => by norm_num [demoEnv, demoRandom]

theorem demoEnv_weibullvariate_nonneg : ∀ (s' : Unit) (a b : ℚ),
    0 ≤ (demoEnv.R.weibullvariate s' a b).1 :=
  fun _ _ _ => le_refl 0

/-- A record that has the `precipitation` field. -/
def demoRecPresent : DailyRecord where
  date := 10
  temperature := 0
  max_temperature := none
  min_temperature := none
  precipitation := some 10
  wind_speed := none
  humidity := none

/-- A record that lacks the `precipitation` field (as `_parse_nasa_data`
can produce: only `temperature` is guaranteed). -/
def demoRecMissing : DailyRecord where
  date := 10
  temperature := 0
  max_temperature := none
  min_temperature := none
  precipitation := none
  wind_speed := none
  humidity := none

def demoList : List DailyRecord := [demoRecPresent, demoRecMissing]

/-! ### Claim theorems -/

/-- C1: for every latitude, longitude and horizon `days ≥ 0`,
`predict_weather` returns a list of exactly `days` prediction records whose
dates are strictly increasing consecutive calendar days (each date is
exactly one day after the previous), on both the similar-day branch and the
basic-prediction fallback branch. -/
theorem predict_weather_horizon_consecutive {σ : Type} (E : PyEnv σ) (lat lon : ℚ)
    (days : ℕ) (historical_data : List DailyRecord) (today : ℕ) (s : σ) :
    ((predictWeatherFrom E lat lon days historical_data today s).1).length = days ∧
    List.Chain' (fun a b => b = a + 1)
      (((predictWeatherFrom E lat lon days historical_data today s).1).map
        Prediction.date) := by
  unfold predictWeatherFrom
  split_ifs with h
  · unfold generateBasicPredictions
    refine ⟨dateLoop_length _ _ _ _ _, ?_⟩
    rw [dateLoop_map_date _ _ (fun fd s' => rfl)]
    exact chain'_consecutive_range' days _
  · refine ⟨dateLoop_length _ _ _ _ _, ?_⟩
    rw [dateLoop_map_date _ _ (fun fd s' => rfl)]
    exact chain'_consecutive_range' days _

/-- C2: a historical record is selected as a similar day if and only if its
day-of-year circular distance to the target is at most 10, and the
weighted-average path of `predict_weather` (`similar_days and
len(similar_days) > 5`) is taken if and only if at least 6 such records
exist. -/
theorem find_similar_days_selection_and_threshold {σ : Type} (E : PyEnv σ)
    (historical_data : List DailyRecord) (target_day_of_year : ℕ) (lat : ℚ) :
    (∀ rec : DailyRecord,
      rec ∈ findSimilarDays E historical_data target_day_of_year lat 10 ↔
        rec ∈ historical_data ∧
          circDist (E.dayOfYear rec.date) target_day_of_year ≤ 10) ∧
    (similarGuard (findSimilarDays E historical_data target_day_of_year lat 10) = true ↔
      6 ≤ (findSimilarDays E historical_data target_day_of_year lat 10).length) := by
  constructor
  · intro rec
    simp [findSimilarDays, List.mem_filter]
  · rcases hL : findSimilarDays E historical_data target_day_of_year lat 10 with _ | ⟨a, tl⟩
    · simp [similarGuard]
    · simp only [similarGuard, List.isEmpty_cons, Bool.not_false, Bool.true_and,
        decide_eq_true_eq, List.length_cons]
      omega

/-- C3: `_weighted_average` computes the weighted mean
`sum(v_i * w_i) / sum(w_i)` with weight `w_i = 1/(1 + circularDistance)`,
and on an empty candidate set it returns the defined default 0; the division
is guarded and its denominator is positive whenever the candidate set is
non-empty and the day-of-year values are in `[1, 366]`. -/
theorem weighted_average_empty_default_and_guard {σ : Type} (E : PyEnv σ)
    (similar_days : List DailyRecord) (parameter : WField) (target_day_of_year : ℕ)
    (hd1 : 1 ≤ target_day_of_year) (hd2 : target_day_of_year ≤ 366)
    (hr : ∀ rec ∈ similar_days, 1 ≤ E.dayOfYear rec.date ∧ E.dayOfYear rec.date ≤ 366)
    (hne : similar_days ≠ []) :
    weightedAverage E [] parameter target_day_of_year = 0 ∧
    0 < totalWeight E similar_days target_day_of_year ∧
    weightedAverage E similar_days parameter target_day_of_year =
      weightedSum E similar_days parameter target_day_of_year /
        totalWeight E similar_days target_day_of_year := by
  have hw := totalWeight_pos E similar_days target_day_of_year hd1 hd2 hr hne
  refine ⟨rfl, hw, ?_⟩
  simp only [weightedAverage]
  rw [if_neg (by simp [hne]), if_pos hw]

theorem weighted_average_empty_default_and_guard_witness :
    (1 ≤ 11 ∧ 11 ≤ 366) ∧
    (weightedAverage demoEnv [] .temperature 11 = 0 ∧
      0 < totalWeight demoEnv demoList 11 ∧
      weightedAverage demoEnv demoList .temperature 11 =
        weightedSum demoEnv demoList .temperature 11 / totalWeight demoEnv demoList 11) :=
  ⟨⟨by norm_num, by norm_num⟩,
    weighted_average_empty_default_and_guard demoEnv demoList .temperature 11
      (by norm_num) (by norm_num) (by decide) (by decide)⟩

/-- C5: `_generate_simulated_data` is deterministic per coordinate pair: two
calls with identical `(lat, lon, start_date, end_date)` arguments produce
identical record sequences whatever the incoming PRNG state, because the
generator is re-seeded from a hash of the coordinate pair at the start of
each call. -/
theorem generate_simulated_data_deterministic {σ : Type} (E : PyEnv σ) (lat lon : ℚ)
    (start_date end_date : ℕ) (s₁ s₂ : σ) :
    (generateSimulatedData E lat lon start_date end_date s₁).1 =
      (generateSimulatedData E lat lon start_date end_date s₂).1 := rfl

/-- C6: for every coordinate pair and every pair of well-formed dates with
`start_date ≤ end_date`, `get_historical_data` is total (the final raise is
caught and answered by `_generate_simulated_data`) and always returns a
non-empty sequence of daily records, whatever the outcomes of the NASA API
attempts. -/
theorem get_historical_data_total_nonempty {σ : Type} (E : PyEnv σ)
    (attempts : List AttemptResult) (lat lon : ℚ) (start_date end_date : ℕ) (s : σ)
    (h : start_date ≤ end_date) :
    (getHistoricalData E attempts lat lon start_date end_date s).1 ≠ [] := by
  unfold getHistoricalData
  cases hfs : firstSuccess attempts with
  | some parsed => simpa using firstSuccess_ne_nil hfs
  | none =>
    simp only [generateSimulatedData]
    have hlen := simLoop_length E lat lon start_date
      (if start_date ≤ end_date then end_date - start_date + 1 else 0)
      (E.R.seed ((E.pyHash lat lon).natAbs % 10000))
    rw [if_pos h] at hlen
    intro hnil
    rw [if_pos h] at hnil
    rw [hnil] at hlen
    simp only [List.length_nil] at hlen
    omega

theorem get_historical_data_total_nonempty_witness :
    0 ≤ 0 ∧ (getHistoricalData demoEnv [] 0 0 0 0 ()).1 ≠ [] :=
  ⟨le_refl 0, get_historical_data_total_nonempty demoEnv [] 0 0 0 0 () (le_refl 0)⟩

/-- C7: the day-of-year circular distance `min(|r-d|, 365-|r-d|)` is
symmetric in its two arguments and, for day-of-year values in `[1, 366]`,
bounded above by 182. -/
theorem circ_dist_symm_le_182 (r d : ℕ) (hr1 : 1 ≤ r) (hr2 : r ≤ 366)
    (hd1 : 1 ≤ d) (hd2 : d ≤ 366) :
    circDist r d = circDist d r ∧ circDist r d ≤ 182 :=
  ⟨circDist_symm r d, circDist_le_182 hr1 hr2 hd1 hd2⟩

theorem circ_dist_symm_le_182_witness :
    (1 ≤ 1 ∧ 1 ≤ 366 ∧ 1 ≤ 366 ∧ 366 ≤ 366) ∧
    (circDist 1 366 = circDist 366 1 ∧ circDist 1 366 ≤ 182) :=
  ⟨⟨le_refl 1, by norm_num, by norm_num, le_refl 366⟩,
    circ_dist_symm_le_182 1 366 (le_refl 1) (by norm_num) (by norm_num) (le_refl 366)⟩

instance : Inhabited DailyRecord :=
  ⟨{ date := 0, temperature := 0, max_temperature := none, min_temperature := none,
     precipitation := none, wind_speed := none, humidity := none }⟩

instance : Inhabited Prediction :=
  ⟨{ date := 0, temperature := 0, precipitation := 0, wind_speed := 0,
     max_temperature := 0, min_temperature := 0, humidity := 0 }⟩

theorem headI_mem_of_ne_nil {α : Type} [Inhabited α] :
    ∀ {l : List α}, l ≠ [] → l.headI ∈ l
  | [], h => absurd rfl h
  | a :: l, _ => List.mem_cons_self a l

theorem predictWeatherFrom_length {σ : Type} (E : PyEnv σ) (lat lon : ℚ) (days : ℕ)
    (historical_data : List DailyRecord) (today : ℕ) (s : σ) :
    ((predictWeatherFrom E lat lon days historical_data today s).1).length = days := by
  unfold predictWeatherFrom generateBasicPredictions
  split_ifs with h
  · exact dateLoop_length _ _ _ _ _
  · exact dateLoop_length _ _ _ _ _

theorem predictWeatherFrom_ne_nil {σ : Type} (E : PyEnv σ) (lat lon : ℚ) (days : ℕ)
    (historical_data : List DailyRecord) (today : ℕ) (s : σ) (h : 0 < days) :
    (predictWeatherFrom E lat lon days historical_data today s).1 ≠ [] := by
  have hl := predictWeatherFrom_length E lat lon days historical_data today s
  intro hcon
  rw [hcon] at hl
  simp only [List.length_nil] at hl
  omega

theorem generateSimulatedData_ne_nil {σ : Type} (E : PyEnv σ) (lat lon : ℚ)
    (start_date end_date : ℕ) (s : σ) (h : start_date ≤ end_date) :
    (generateSimulatedData E lat lon start_date end_date s).1 ≠ [] := by
  simp only [generateSimulatedData]
  rw [if_pos h]
  have hl := simLoop_length E lat lon start_date (end_date - start_date + 1)
    (E.R.seed ((E.pyHash lat lon).natAbs % 10000))
  intro hcon
  rw [hcon] at hl
  simp only [List.length_nil] at hl
  omega

/-- C4: every prediction record returned by `predict_weather`, on every
branch (weighted-average, in-loop climate fallback, and basic-prediction
fallback), has `precipitation ≥ 0`, `wind_speed ≥ 0` and humidity in
`[20, 95]`, given what the Python random distributions guarantee
(`uniform(a,b) ∈ [a,b]`, `expovariate ≥ 0`, `weibullvariate ≥ 0`). -/
theorem predictions_respect_output_ranges {σ : Type} (E : PyEnv σ) (lat lon : ℚ)
    (days : ℕ) (historical_data : List DailyRecord) (today : ℕ) (s : σ)
    (hu : ∀ (s' : σ) (a b : ℚ), a ≤ b →
      a ≤ (E.R.uniform s' a b).1 ∧ (E.R.uniform s' a b).1 ≤ b)
    (hexpo : ∀ (s' : σ) (l : ℚ), 0 ≤ (E.R.expovariate s' l).1)
    (hweib : ∀ (s' : σ) (a b : ℚ), 0 ≤ (E.R.weibullvariate s' a b).1) :
    ∀ p ∈ (predictWeatherFrom E lat lon days historical_data today s).1,
      0 ≤ p.precipitation ∧ 0 ≤ p.wind_speed ∧ 20 ≤ p.humidity ∧ p.humidity ≤ 95 := by
  intro p hp
  unfold predictWeatherFrom at hp
  split_ifs at hp with h
  · unfold generateBasicPredictions at hp
    exact dateLoop_mem
      (fun q => 0 ≤ q.precipitation ∧ 0 ≤ q.wind_speed ∧ 20 ≤ q.humidity ∧ q.humidity ≤ 95)
      _ _ (fun fd s' => basicStep_ranges E lat lon fd s' hu hexpo hweib) days 0 s p hp
  · exact dateLoop_mem
      (fun q => 0 ≤ q.precipitation ∧ 0 ≤ q.wind_speed ∧ 20 ≤ q.humidity ∧ q.humidity ≤ 95)
      _ _ (fun fd s' => predictionStep_ranges E lat lon historical_data fd s' hu) days 0 s p hp

theorem predictions_respect_output_ranges_witness :
    ((predictWeatherFrom demoEnv 0 0 1 [] 100 ()).1).headI ∈
      (predictWeatherFrom demoEnv 0 0 1 [] 100 ()).1 ∧
    (0 ≤ ((predictWeatherFrom demoEnv 0 0 1 [] 100 ()).1).headI.precipitation ∧
      0 ≤ ((predictWeatherFrom demoEnv 0 0 1 [] 100 ()).1).headI.wind_speed ∧
      20 ≤ ((predictWeatherFrom demoEnv 0 0 1 [] 100 ()).1).headI.humidity ∧
      ((predictWeatherFrom demoEnv 0 0 1 [] 100 ()).1).headI.humidity ≤ 95) := by
  have hmem := headI_mem_of_ne_nil
    (predictWeatherFrom_ne_nil demoEnv 0 0 1 [] 100 () (by norm_num))
  exact ⟨hmem, predictions_respect_output_ranges demoEnv 0 0 1 [] 100 ()
    demoEnv_uniform_range demoEnv_expovariate_nonneg demoEnv_weibullvariate_nonneg
    _ hmem⟩

/-- C8: every record produced by `_generate_simulated_data` has the fixed
`±6` degree spread around the mean temperature: the stored max and min are
exactly the stored temperature plus and minus 6, so their difference is 12
and the temperature is their mean. -/
theorem simulated_data_fixed_spread {σ : Type} (E : PyEnv σ) (lat lon : ℚ)
    (start_date end_date : ℕ) (s : σ) :
    ∀ rec ∈ (generateSimulatedData E lat lon start_date end_date s).1,
      rec.max_temperature = some (rec.temperature + 6) ∧
      rec.min_temperature = some (rec.temperature - 6) ∧
      rec.temperature + 6 - (rec.temperature - 6) = 12 := by
  intro rec hrec
  simp only [generateSimulatedData] at hrec
  have h := simLoop_spread E lat lon start_date _ _ rec hrec
  exact ⟨h.1, h.2, by ring⟩

theorem simulated_data_fixed_spread_witness :
    ((generateSimulatedData demoEnv 0 0 5 5 ()).1).headI ∈
      (generateSimulatedData demoEnv 0 0 5 5 ()).1 ∧
    (((generateSimulatedData demoEnv 0 0 5 5 ()).1).headI.max_temperature =
        some (((generateSimulatedData demoEnv 0 0 5 5 ()).1).headI.temperature + 6) ∧
      ((generateSimulatedData demoEnv 0 0 5 5 ()).1).headI.min_temperature =
        some (((generateSimulatedData demoEnv 0 0 5 5 ()).1).headI.temperature - 6) ∧
      ((generateSimulatedData demoEnv 0 0 5 5 ()).1).headI.temperature + 6 -
          (((generateSimulatedData demoEnv 0 0 5 5 ()).1).headI.temperature - 6) = 12) := by
  have hmem := headI_mem_of_ne_nil
    (generateSimulatedData_ne_nil demoEnv 0 0 5 5 () (le_refl 5))
  exact ⟨hmem, simulated_data_fixed_spread demoEnv 0 0 5 5 () _ hmem⟩

/-- C9: every prediction record returned by `predict_weather` satisfies
`min_temperature ≤ temperature ≤ max_temperature`: on the similar-day and
in-loop fallback branches the max/min offsets are uniform draws in `[2, 6]`,
on the basic-prediction branch they are the constant 4, and rounding to one
decimal preserves the ordering. -/
theorem predictions_min_le_temp_le_max {σ : Type} (E : PyEnv σ) (lat lon : ℚ)
    (days : ℕ) (historical_data : List DailyRecord) (today : ℕ) (s : σ)
    (hu : ∀ (s' : σ) (a b : ℚ), a ≤ b →
      a ≤ (E.R.uniform s' a b).1 ∧ (E.R.uniform s' a b).1 ≤ b) :
    ∀ p ∈ (predictWeatherFrom E lat lon days historical_data today s).1,
      p.min_temperature ≤ p.temperature ∧ p.temperature ≤ p.max_temperature := by
  intro p hp
  unfold predictWeatherFrom at hp
  split_ifs at hp with h
  · unfold generateBasicPredictions at hp
    exact dateLoop_mem
      (fun q => q.min_temperature ≤ q.temperature ∧ q.temperature ≤ q.max_temperature)
      _ _ (fun fd s' => basicStep_temp_order E lat lon fd s') days 0 s p hp
  · exact dateLoop_mem
      (fun q => q.min_temperature ≤ q.temperature ∧ q.temperature ≤ q.max_temperature)
      _ _ (fun fd s' => predictionStep_temp_order E lat lon historical_data fd s' hu)
      days 0 s p hp

theorem predictions_min_le_temp_le_max_witness :
    ((predictWeatherFrom demoEnv 0 0 1 [] 100 ()).1).headI ∈
      (predictWeatherFrom demoEnv 0 0 1 [] 100 ()).1 ∧
    (((predictWeatherFrom demoEnv 0 0 1 [] 100 ()).1).headI.min_temperature ≤
        ((predictWeatherFrom demoEnv 0 0 1 [] 100 ()).1).headI.temperature ∧
      ((predictWeatherFrom demoEnv 0 0 1 [] 100 ()).1).headI.temperature ≤
        ((predictWeatherFrom demoEnv 0 0 1 [] 100 ()).1).headI.max_temperature) := by
  have hmem := headI_mem_of_ne_nil
    (predictWeatherFrom_ne_nil demoEnv 0 0 1 [] 100 () (by norm_num))
  exact ⟨hmem, predictions_min_le_temp_le_max demoEnv 0 0 1 [] 100 ()
    demoEnv_uniform_range _ hmem⟩

/-- C10: when a candidate record lacks the requested field,
`_weighted_average` substitutes 0 for it while still counting its weight in
the denominator: the result is the weighted sum over the records that do
have the field, divided by the total weight of all candidates — which, as
the concrete instance shows, differs from the weighted mean over only the
records that have the field. -/
theorem weighted_average_missing_field_semantics {σ : Type} (E : PyEnv σ)
    (similar_days : List DailyRecord) (parameter : WField) (target_day_of_year : ℕ)
    (hd1 : 1 ≤ target_day_of_year) (hd2 : target_day_of_year ≤ 366)
    (hr : ∀ rec ∈ similar_days, 1 ≤ E.dayOfYear rec.date ∧ E.dayOfYear rec.date ≤ 366)
    (hne : similar_days ≠ []) :
    weightedAverage E similar_days parameter target_day_of_year =
      weightedSum E (similar_days.filter (fun rec => (rec.get parameter).isSome))
          parameter target_day_of_year /
        totalWeight E similar_days target_day_of_year ∧
    weightedAverage demoEnv demoList .precipitation 11 ≠
      presentOnlyWeightedAverage demoEnv demoList .precipitation 11 := by
  constructor
  · have hw := totalWeight_pos E similar_days target_day_of_year hd1 hd2 hr hne
    simp only [weightedAverage]
    rw [if_neg (by simp [hne]), if_pos hw, weightedSum_filter_isSome]
  · norm_num [weightedAverage, presentOnlyWeightedAverage, totalWeight, weightedSum,
      demoList, demoRecPresent, demoRecMissing, demoEnv, DailyRecord.get, circDist,
      List.filter]

theorem weighted_average_missing_field_semantics_witness :
    (1 ≤ 11 ∧ 11 ≤ 366 ∧ demoList ≠ []) ∧
    (weightedAverage demoEnv demoList .precipitation 11 =
      weightedSum demoEnv (demoList.filter (fun rec => (rec.get .precipitation).isSome))
          .precipitation 11 /
        totalWeight demoEnv demoList 11 ∧
    weightedAverage demoEnv demoList .precipitation 11 ≠
      presentOnlyWeightedAverage demoEnv demoList .precipitation 11) :=
  ⟨⟨by norm_num, by norm_num, by simp [demoList]⟩,
    weighted_average_missing_field_semantics demoEnv demoList .precipitation 11
      (by norm_num) (by norm_num) (by decide) (by simp [demoList])⟩

end SmartSauti
